import Mathlib

/-!
Shallow embedding of the grammar-checker request orchestration and caching
core (`src/lib/grammar/languagetool.ts`, `src/lib/grammar/cache.ts`,
`src/lib/grammar/openai.ts`, `src/lib/grammar/openrouter.ts`,
`src/app/api/grammar-check/route.ts`), together with proofs about the
spec's claims for that core.

Modelling conventions:
* JavaScript numbers that hold heuristic scores are modelled as `ℚ`
  (every score in the source is a multiple of `0.5`, which rationals
  represent exactly, as do IEEE doubles at this magnitude).
* A JavaScript function that can throw is modelled as `Option`- or
  `Except`-valued; `none` / `.error` is a thrown exception.
* Network and key-value-store I/O is modelled by explicit outcome values
  passed in as parameters (the "world"): the code under test is the pure
  request/response logic around those outcomes.
* JavaScript strings are modelled as Lean `String`s; `toLowerCase` /
  `toUpperCase` are modelled by the ASCII `Char.toLower` / `Char.toUpper`
  (all string constants in the source are ASCII).
-/

namespace GrammarChecker

/-! ### Data model (`src/types/grammar.ts`) -/

/-- The five-member error-type enum of `types/grammar.ts`. -/
inductive ErrorType where
  | grammar
  | spelling
  | style
  | punctuation
  | other
deriving DecidableEq, Repr

/-- The `rule` field of a normalized `GrammarError`. -/
structure GrammarRule where
  id : String
  description : String
  category : String
deriving DecidableEq, Repr

/-- The optional `context` field of a normalized `GrammarError`. -/
structure GrammarContext where
  text : String
  offset : Nat
  length : Nat
deriving DecidableEq, Repr

/-- A normalized grammar error (`GrammarError` in `types/grammar.ts`). -/
structure GrammarError where
  message : String
  shortMessage : Option String
  offset : Nat
  length : Nat
  replacements : List String
  rule : GrammarRule
  type : ErrorType
  context : Option GrammarContext
deriving DecidableEq, Repr

/-- A provider failure (a thrown `Error` carrying its message). -/
structure ProviderError where
  msg : String
deriving DecidableEq, Repr

/-! ### JavaScript string helpers used by the ranking heuristic -/

/-- Whitespace characters matched by the JavaScript regex class `\s`
(ASCII fragment; the source only ever splits ASCII text). -/
def jsIsWs (c : Char) : Bool :=
  c = ' ' || c = '\t' || c = '\n' || c = '\r' || c = '\x0b' || c = '\x0c'

/-- Worker for `jsSplitWs`.  `inTok = true` means a token is currently
open (so meeting a separator must close and emit it); `inTok = false`
means we are inside a separator run.  This reproduces JavaScript
`String.prototype.split(/\s+/)`: tokens between maximal whitespace runs,
with a leading empty token when the string starts with whitespace and a
trailing empty token when it ends with whitespace. -/
def wsSplitGo (cur : List Char) (inTok : Bool) : List Char → List (List Char)
  | [] => [cur.reverse]
  | c :: rest =>
    if jsIsWs c then
      if inTok then cur.reverse :: wsSplitGo [] false rest
      else wsSplitGo [] false rest
    else wsSplitGo (c :: cur) true rest

/-- JavaScript `s.split(/\s+/)`. -/
def jsSplitWs (s : String) : List String :=
  (wsSplitGo [] true s.data).map String.mk

/-- JavaScript `s.substring(a, b)` for `a ≤ b` (the only way the source
calls it): the characters with indices in `[a, b)`, clamped to the
string. -/
def jsSubstring (s : String) (a b : Nat) : String :=
  String.mk ((s.data.drop a).take (b - a))

/-- `charsStartWith pat cs` : `cs` starts with the pattern `pat`. -/
def charsStartWith : List Char → List Char → Bool
  | [], _ => true
  | _ :: _, [] => false
  | p :: ps, c :: cs => p = c && charsStartWith ps cs

/-- Worker for `strIncludes`: does any suffix of the second list start
with `pat`? -/
def charsIncludeAux (pat : List Char) : List Char → Bool
  | [] => charsStartWith pat []
  | c :: cs => charsStartWith pat (c :: cs) || charsIncludeAux pat cs

/-- JavaScript `s.includes(pat)` (substring containment). -/
def strIncludes (s pat : String) : Bool :=
  charsIncludeAux pat.data s.data

/-! ### Suggestion ranking (`src/lib/grammar/languagetool.ts`) -/

/-- The `COMMON_WORDS` set of `languagetool.ts` (verbatim, duplicates
included; membership is unaffected). -/
def COMMON_WORDS : List String :=
  ["hello", "help", "here", "there", "have", "has", "had", "will", "would",
   "could", "should", "can", "may", "might", "must", "the", "be", "to", "of",
   "and", "a", "in", "that", "have", "i", "it", "for", "not", "on", "with",
   "he", "as", "you", "do", "at", "this", "but", "his", "by", "from", "they",
   "we", "say", "her", "she", "or", "an", "will", "my", "one", "all", "would",
   "there", "their", "what", "so", "up", "out", "if", "about", "who", "get",
   "which", "go", "me", "when", "make", "can", "like", "time", "no", "just",
   "him", "know", "take", "people", "into", "year", "your", "good", "some",
   "them", "see", "other", "than", "then", "now", "look", "only", "come",
   "its", "over", "think", "also", "back", "after", "use", "two", "how",
   "our", "work", "first", "well", "way", "even", "new", "want", "because",
   "any", "these", "give", "day", "most", "us"]

/-- The `greetings` list local to `scoreSuggestion`. -/
def GREETINGS : List String :=
  ["hello", "hi", "hey", "dear", "greetings"]

/-- JavaScript `Math.abs` on a rational score. -/
def ratAbs (x : ℚ) : ℚ := if x < 0 then -x else x

/-- JavaScript `s.toLowerCase()` (every string the source lowercases is
ASCII, where `Char.toLower` agrees with JavaScript). -/
def strToLower (s : String) : String := String.mk (s.data.map Char.toLower)

/-- Lines 111-137 of `languagetool.ts` (`getEditDistance`): one inner
step of a row of the Levenshtein matrix.  Arguments: the current
character of `b`, the remaining characters of `a` (columns `j, j+1, …`),
the entry `matrix[i-1][j-1]` (diagonal), the rest of the previous row
(whose head is `matrix[i-1][j]`), and the entry `matrix[i][j-1]`
(left). -/
def levRowAux (bc : Char) : List Char → Nat → List Nat → Nat → List Nat
  | [], _, _, _ => []
  | ac :: as_, diag, prevRest, left =>
    let up := prevRest.headD 0
    let cur := if bc = ac then diag else min (min diag left) up + 1
    cur :: levRowAux bc as_ up prevRest.tail cur

/-- Row `i` of the Levenshtein matrix (entries `matrix[i][0..|a|]`),
given row `i-1`. -/
def levRow (bc : Char) (as_ : List Char) (prev : List Nat) (i : Nat) : List Nat :=
  i :: levRowAux bc as_ (prev.headD 0) prev.tail i

/-- `getEditDistance(a, b)` of `languagetool.ts`: the Levenshtein
distance, computed row by row exactly as the source's matrix loop does
(row 0 is `[0..|a|]`; row `i` starts with `i`; each entry is the
diagonal value on a character match and otherwise `1 + min` of the
diagonal, left and upper neighbours).  The result is
`matrix[|b|][|a|]`, the last entry of the final row. -/
def getEditDistance (a b : String) : Nat :=
  let as_ := a.data
  let final := b.data.foldl
    (fun (st : List Nat × Nat) bc =>
      let i := st.2 + 1
      (levRow bc as_ st.1 i, i))
    (List.range (as_.length + 1), 0)
  final.1.getLastD 0

/-- Lines 79-83 of `languagetool.ts`: the capitalization bonus
`if (originalWord[0] === originalWord[0].toUpperCase() && suggestion[0] === suggestion[0].toUpperCase()) score += 5`.
`none` models the thrown `TypeError`: indexing an empty string gives
`undefined`, and `undefined.toUpperCase()` throws.  JavaScript `&&`
short-circuits, so an empty `suggestion` only throws when the test on
`originalWord` already succeeded. -/
def capitalizationBonus (suggestion originalWord : String) : Option ℚ :=
  match originalWord.data with
  | [] => none
  | c :: _ =>
    if c = c.toUpper then
      match suggestion.data with
      | [] => none
      | d :: _ => if d = d.toUpper then some 5 else some 0
    else some 0

/-- All the components of `scoreSuggestion` other than the
capitalization bonus (lines 60-105 of `languagetool.ts` minus lines
79-83); these never throw.  Addition is commutative, so summing them
apart from the capitalization bonus is faithful to the source's
sequence of `score +=` updates. -/
def scoreWithoutCapBonus (suggestion originalWord contextBefore contextAfter : String)
    (isStartOfSentence : Bool) : ℚ :=
  let suggestionLower := strToLower suggestion
  let originalLower := strToLower originalWord
  let commonScore : ℚ := if COMMON_WORDS.contains suggestionLower then 10 else 0
  let greetingScore : ℚ :=
    if isStartOfSentence && GREETINGS.contains suggestionLower then 15 else 0
  let lengthDiff : ℚ := ratAbs ((suggestion.length : ℚ) - (originalWord.length : ℚ))
  let editDistance : ℚ := (getEditDistance originalLower suggestionLower : ℚ)
  let contextWords := jsSplitWs (strToLower (contextBefore ++ " " ++ contextAfter))
  let helloScore : ℚ :=
    if suggestionLower = "hello" && contextWords.contains "how" then 20 else 0
  let helpScore : ℚ :=
    if suggestionLower = "help" &&
        (contextWords.contains "need" || contextWords.contains "can") then 10 else 0
  commonScore + greetingScore - lengthDiff * (1 / 2) - editDistance + helloScore + helpScore

/-- `scoreSuggestion` of `languagetool.ts`: the final score, or `none`
when the capitalization-bonus line throws a `TypeError`. -/
def scoreSuggestion (suggestion originalWord contextBefore contextAfter : String)
    (isStartOfSentence : Bool) : Option ℚ :=
  (capitalizationBonus suggestion originalWord).map
    (fun capScore =>
      scoreWithoutCapBonus suggestion originalWord contextBefore contextAfter
        isStartOfSentence + capScore)

/-- Test of the JavaScript regex `/[.!?]\s*$/` on the context before the
error: after discarding trailing whitespace the string ends with `.`,
`!` or `?`. -/
def endsSentence (s : String) : Bool :=
  match s.data.reverse.dropWhile jsIsWs with
  | [] => false
  | c :: _ => c = '.' || c = '!' || c = '?'

/-- The score `smartOrderSuggestions` computes for one suggestion: the
50-character context windows, the start-of-sentence test and then
`scoreSuggestion`.  (Nat subtraction truncates at zero, which is
exactly `Math.max(0, errorOffset - 50)`.) -/
def suggestionScore (originalWord fullText : String) (errorOffset : Nat)
    (suggestion : String) : Option ℚ :=
  let contextBefore := jsSubstring fullText (errorOffset - 50) errorOffset
  let contextAfter := jsSubstring fullText (errorOffset + originalWord.length)
    (errorOffset + originalWord.length + 50)
  let isStartOfSentence := errorOffset = 0 || endsSentence contextBefore
  scoreSuggestion suggestion originalWord contextBefore contextAfter isStartOfSentence

/-- The descending-score comparison used by
`scoredSuggestions.sort((a, b) => b.score - a.score)`:
`a` may precede `b` iff `b.score ≤ a.score`. -/
def scoreRel (a b : String × ℚ) : Prop := b.2 ≤ a.2

instance : DecidableRel scoreRel := fun a b => inferInstanceAs (Decidable (b.2 ≤ a.2))

instance : IsTotal (String × ℚ) scoreRel := ⟨fun a b => le_total b.2 a.2⟩

instance : IsTrans (String × ℚ) scoreRel := ⟨fun _ _ _ h1 h2 => le_trans h2 h1⟩

/-- `smartOrderSuggestions` of `languagetool.ts`: score every suggestion
(a thrown `TypeError` from `scoreSuggestion` aborts the whole `map`,
hence `mapM`), sort by descending score, and project the strings back
out.  ECMAScript `Array.prototype.sort` is required to be stable, which
stable insertion sort models. -/
def smartOrderSuggestions (suggestions : List String) (originalWord fullText : String)
    (errorOffset : Nat) : Option (List String) :=
  match suggestions.mapM
      (fun s => (suggestionScore originalWord fullText errorOffset s).map
        (fun q => (s, q))) with
  | none => none
  | some scored => some ((List.insertionSort scoreRel scored).map Prod.fst)

/-- `mapErrorType` of `languagetool.ts`: case-insensitive substring
matching of the LanguageTool category id / type name onto the
five-member `ErrorType` enum. -/
def mapErrorType (category : String) (typeName : Option String) : ErrorType :=
  let categoryLower := strToLower category
  let typeNameLower := strToLower (typeName.getD "")
  if strIncludes categoryLower "spell" || strIncludes typeNameLower "spell" then .spelling
  else if strIncludes categoryLower "grammar" || strIncludes typeNameLower "grammar" then .grammar
  else if strIncludes categoryLower "style" || strIncludes typeNameLower "style" then .style
  else if strIncludes categoryLower "punctuation" || strIncludes typeNameLower "punctuation" then
    .punctuation
  else .other

/-- One entry of a LanguageTool match's `replacements` array. -/
structure LTReplacement where
  value : String
deriving DecidableEq, Repr

/-- The `category` field of a LanguageTool rule. -/
structure LTCategory where
  id : String
  name : String
deriving DecidableEq, Repr

/-- The `rule` field of a LanguageTool match. -/
structure LTRule where
  id : String
  description : String
  category : LTCategory
deriving DecidableEq, Repr

/-- The optional `type` field of a LanguageTool match. -/
structure LTType where
  typeName : String
deriving DecidableEq, Repr

/-- A raw match of the LanguageTool API response
(`LanguageToolMatch` in `languagetool.ts`). -/
structure LanguageToolMatch where
  message : String
  shortMessage : Option String
  offset : Nat
  length : Nat
  replacements : List LTReplacement
  rule : LTRule
  context : GrammarContext
  type : Option LTType
deriving DecidableEq, Repr

/-- `normalizeMatch` of `languagetool.ts`: extract the erroneous word,
smart-reorder the candidate replacements, cap them to the first 5, and
build the normalized `GrammarError`.  `none` models a `TypeError`
thrown by the ranking heuristic. -/
def normalizeMatch (m : LanguageToolMatch) (fullText : String) : Option GrammarError :=
  let originalWord := jsSubstring fullText m.offset (m.offset + m.length)
  let suggestions := m.replacements.map (fun r => r.value)
  (smartOrderSuggestions suggestions originalWord fullText m.offset).map
    (fun orderedSuggestions =>
      { message := m.message
        shortMessage := m.shortMessage
        offset := m.offset
        length := m.length
        replacements := orderedSuggestions.take 5
        rule := { id := m.rule.id
                  description := m.rule.description
                  category := m.rule.category.name }
        type := mapErrorType m.rule.category.id (m.type.map (fun t => t.typeName))
        context := some m.context })

/-- What the LanguageTool HTTP exchange did: a non-2xx response, a
`response.json()` failure, or a parsed list of matches. -/
inductive LTOutcome where
  | httpError (status : Nat) (statusText : String)
  | badJson
  | ok (ms : List LanguageToolMatch)

/-- `checkWithLanguageTool` of `languagetool.ts`.  A non-2xx response
throws, `response.json()` may throw, and `normalizeMatch` may throw a
`TypeError`; the surrounding `catch` rethrows every failure wrapped in
a `Failed to check text with LanguageTool: …` provider error. -/
def checkWithLanguageTool (outcome : LTOutcome) (text : String) (language : String) :
    Except ProviderError (List GrammarError) :=
  match outcome with
  | .httpError status statusText =>
    .error ⟨"Failed to check text with LanguageTool: LanguageTool API error: "
      ++ toString status ++ " " ++ statusText⟩
  | .badJson => .error ⟨"Failed to check text with LanguageTool: Unknown error"⟩
  | .ok ms =>
    match ms.mapM (fun m => normalizeMatch m text) with
    | some errs => .ok errs
    | none => .error ⟨"Failed to check text with LanguageTool: TypeError"⟩

/-! ### Premium language-model variant (`src/lib/grammar/openai.ts`) -/

/-- One entry of the `errors` array OpenAI is prompted to return. -/
structure OpenAIGrammarError where
  message : String
  shortMessage : Option String
  offset : Nat
  length : Nat
  replacements : List String
  ruleId : String
  ruleDescription : String
  category : String
  type : ErrorType
deriving DecidableEq, Repr

/-- `normalizeOpenAIError` of `openai.ts`: reshape one model-reported
error, capping `replacements` to the first 5 (`slice(0, 5)`). -/
def normalizeOpenAIError (error : OpenAIGrammarError) : GrammarError :=
  { message := error.message
    shortMessage := error.shortMessage
    offset := error.offset
    length := error.length
    replacements := error.replacements.take 5
    rule := { id := error.ruleId
              description := error.ruleDescription
              category := error.category }
    type := error.type
    context := none }

/-- What the OpenAI exchange did once a key is configured: the API call
threw, the completion had no content, the content was not JSON, or it
parsed — with the `errors` field either present (`some`) or absent
(`none`, in which case `response.errors || []` yields `[]`). -/
inductive OpenAICallOutcome where
  | callError (msg : String)
  | noContent
  | parseError
  | parsed (errorsField : Option (List OpenAIGrammarError))

/-- The environment `checkWithOpenAI` reads: the `OPENAI_API_KEY`
variable and the outcome of the API exchange. -/
structure OpenAIEnv where
  apiKey : Option String
  outcome : OpenAICallOutcome

/-- `checkWithOpenAI` of `openai.ts`: hard failure when no key is
configured, when the call errors, when the completion has no content,
or when the content cannot be parsed; otherwise the normalized list. -/
def checkWithOpenAI (env : OpenAIEnv) (text : String) (language : String) :
    Except ProviderError (List GrammarError) :=
  match env.apiKey with
  | none => .error ⟨"OpenAI API key not configured"⟩
  | some _ =>
    match env.outcome with
    | .callError msg => .error ⟨"Failed to check text with OpenAI: " ++ msg⟩
    | .noContent => .error ⟨"Failed to check text with OpenAI: No response from OpenAI"⟩
    | .parseError => .error ⟨"Failed to check text with OpenAI: Unknown error"⟩
    | .parsed none => .ok []
    | .parsed (some errors) => .ok (errors.map normalizeOpenAIError)

/-! ### Free-tier language-model variant (`src/lib/grammar/openrouter.ts`) -/

/-- One entry of the `errors` array OpenRouter is prompted to return
(same shape as the OpenAI one; the source declares both). -/
structure OpenRouterGrammarError where
  message : String
  shortMessage : Option String
  offset : Nat
  length : Nat
  replacements : List String
  ruleId : String
  ruleDescription : String
  category : String
  type : ErrorType
deriving DecidableEq, Repr

/-- `normalizeOpenRouterError` of `openrouter.ts`: reshape one
model-reported error, capping `replacements` to the first 5. -/
def normalizeOpenRouterError (error : OpenRouterGrammarError) : GrammarError :=
  { message := error.message
    shortMessage := error.shortMessage
    offset := error.offset
    length := error.length
    replacements := error.replacements.take 5
    rule := { id := error.ruleId
              description := error.ruleDescription
              category := error.category }
    type := error.type
    context := none }

/-- What the OpenRouter exchange did once a key is configured: non-2xx
response, missing/empty content, content that is not JSON, or parsed
content — with the `errors` field either a present array (`some`) or
absent/not an array (`none`, in which case the source returns `[]`). -/
inductive OpenRouterCallOutcome where
  | httpError (status : Nat)
  | noContent
  | parseError
  | parsed (errorsField : Option (List OpenRouterGrammarError))

/-- `true` on the outcomes that throw inside the `try` block (and are
therefore caught and turned into the LanguageTool fallback). -/
def orCallFails : OpenRouterCallOutcome → Bool
  | .httpError _ => true
  | .noContent => true
  | .parseError => true
  | .parsed _ => false

/-- The environment `checkWithOpenRouter` reads: the
`OPENROUTER_API_KEY` variable and the outcome of the API exchange. -/
structure OpenRouterEnv where
  apiKey : Option String
  outcome : OpenRouterCallOutcome

/-- `checkWithOpenRouter` of `openrouter.ts`.  With no key configured
it returns `checkWithLanguageTool(text, language)` directly; with a key,
every throw inside the `try` block (non-2xx, missing content, JSON
parse failure) is caught and also answered by
`checkWithLanguageTool(text, language)`.  `ltOutcome` is the oracle
describing what the LanguageTool exchange does for a given
`(text, language)`, shared with direct LanguageTool calls. -/
def checkWithOpenRouter (env : OpenRouterEnv) (ltOutcome : String → String → LTOutcome)
    (text : String) (language : String) : Except ProviderError (List GrammarError) :=
  match env.apiKey with
  | none => checkWithLanguageTool (ltOutcome text language) text language
  | some _ =>
    match env.outcome with
    | .httpError _ => checkWithLanguageTool (ltOutcome text language) text language
    | .noContent => checkWithLanguageTool (ltOutcome text language) text language
    | .parseError => checkWithLanguageTool (ltOutcome text language) text language
    | .parsed none => .ok []
    | .parsed (some errors) => .ok (errors.map normalizeOpenRouterError)

/-! ### SHA-256 (FIPS 180-4)

`cache.ts` calls Node's `createHash('sha256').update(text).digest('hex')`.
The crypto module is an opaque third-party dependency, so it is modelled
here by a direct executable rendering of the FIPS 180-4 algorithm over
the UTF-8 bytes of the text, with 32-bit words as `Nat` reduced mod
`2 ^ 32`. -/

/-- Truncation to a 32-bit word. -/
def w32 (x : Nat) : Nat := x % 2 ^ 32

/-- Right rotation of a 32-bit word. -/
def rotr32 (n x : Nat) : Nat := w32 ((x >>> n) ||| (x <<< (32 - n)))

/-- Bitwise complement of a 32-bit word. -/
def not32 (x : Nat) : Nat := x ^^^ 0xffffffff

/-- The SHA-256 `Ch` function. -/
def sha256Ch (x y z : Nat) : Nat := (x &&& y) ^^^ (not32 x &&& z)

/-- The SHA-256 `Maj` function. -/
def sha256Maj (x y z : Nat) : Nat := (x &&& y) ^^^ (x &&& z) ^^^ (y &&& z)

/-- The SHA-256 `Σ0` function. -/
def sha256S0 (x : Nat) : Nat := rotr32 2 x ^^^ rotr32 13 x ^^^ rotr32 22 x

/-- The SHA-256 `Σ1` function. -/
def sha256S1 (x : Nat) : Nat := rotr32 6 x ^^^ rotr32 11 x ^^^ rotr32 25 x

/-- The SHA-256 `σ0` function. -/
def sha256s0 (x : Nat) : Nat := rotr32 7 x ^^^ rotr32 18 x ^^^ (x >>> 3)

/-- The SHA-256 `σ1` function. -/
def sha256s1 (x : Nat) : Nat := rotr32 17 x ^^^ rotr32 19 x ^^^ (x >>> 10)

/-- The 64 SHA-256 round constants (FIPS 180-4 §4.2.2, eight per
row). -/
def sha256K : List Nat :=
  ([[0x428a2f98, 0x71374491, 0xb5c0fbcf, 0xe9b5dba5,
     0x3956c25b, 0x59f111f1, 0x923f82a4, 0xab1c5ed5],
    [0xd807aa98, 0x12835b01, 0x243185be, 0x550c7dc3,
     0x72be5d74, 0x80deb1fe, 0x9bdc06a7, 0xc19bf174],
    [0xe49b69c1, 0xefbe4786, 0x0fc19dc6, 0x240ca1cc,
     0x2de92c6f, 0x4a7484aa, 0x5cb0a9dc, 0x76f988da],
    [0x983e5152, 0xa831c66d, 0xb00327c8, 0xbf597fc7,
     0xc6e00bf3, 0xd5a79147, 0x06ca6351, 0x14292967],
    [0x27b70a85, 0x2e1b2138, 0x4d2c6dfc, 0x53380d13,
     0x650a7354, 0x766a0abb, 0x81c2c92e, 0x92722c85],
    [0xa2bfe8a1, 0xa81a664b, 0xc24b8b70, 0xc76c51a3,
     0xd192e819, 0xd6990624, 0xf40e3585, 0x106aa070],
    [0x19a4c116, 0x1e376c08, 0x2748774c, 0x34b0bcb5,
     0x391c0cb3, 0x4ed8aa4a, 0x5b9cca4f, 0x682e6ff3],
    [0x748f82ee, 0x78a5636f, 0x84c87814, 0x8cc70208,
     0x90befffa, 0xa4506ceb, 0xbef9a3f7, 0xc67178f2]] : List (List Nat)).flatten

/-- The eight 32-bit working variables / hash words of SHA-256. -/
structure Sha256State where
  h0 : Nat
  h1 : Nat
  h2 : Nat
  h3 : Nat
  h4 : Nat
  h5 : Nat
  h6 : Nat
  h7 : Nat
deriving DecidableEq, Repr

/-- The SHA-256 initial hash value. -/
def sha256Init : Sha256State :=
  ⟨0x6a09e667, 0xbb67ae85, 0x3c6ef372, 0xa54ff53a,
   0x510e527f, 0x9b05688c, 0x1f83d9ab, 0x5be0cd19⟩

/-- One word of the extended message schedule. -/
def sha256Extend (w : List Nat) (t : Nat) : Nat :=
  w32 (sha256s1 (w.getD (t - 2) 0) + w.getD (t - 7) 0
    + sha256s0 (w.getD (t - 15) 0) + w.getD (t - 16) 0)

/-- The 64-word message schedule of one 16-word block. -/
def sha256Schedule (block : List Nat) : List Nat :=
  (List.range 48).foldl (fun w i => w ++ [sha256Extend w (i + 16)]) block

/-- One SHA-256 compression round; `wk` is the pair of the schedule
word and the round constant. -/
def sha256Round (st : Sha256State) (wk : Nat × Nat) : Sha256State :=
  let t1 := w32 (st.h7 + sha256S1 st.h4 + sha256Ch st.h4 st.h5 st.h6 + wk.2 + wk.1)
  let t2 := w32 (sha256S0 st.h0 + sha256Maj st.h0 st.h1 st.h2)
  ⟨w32 (t1 + t2), st.h0, st.h1, st.h2, w32 (st.h3 + t1), st.h4, st.h5, st.h6⟩

/-- Compression of one 16-word block into the running hash. -/
def sha256Compress (h : Sha256State) (block : List Nat) : Sha256State :=
  let w := sha256Schedule block
  let st := (w.zip sha256K).foldl sha256Round h
  ⟨w32 (h.h0 + st.h0), w32 (h.h1 + st.h1), w32 (h.h2 + st.h2), w32 (h.h3 + st.h3),
   w32 (h.h4 + st.h4), w32 (h.h5 + st.h5), w32 (h.h6 + st.h6), w32 (h.h7 + st.h7)⟩

/-- The 8-byte big-endian encoding of the message bit length. -/
def lenBytesBE (n : Nat) : List Nat :=
  [n >>> 56 % 256, n >>> 48 % 256, n >>> 40 % 256, n >>> 32 % 256,
   n >>> 24 % 256, n >>> 16 % 256, n >>> 8 % 256, n % 256]

/-- SHA-256 padding: append `0x80`, zero-fill to 56 mod 64, append the
64-bit big-endian bit length. -/
def sha256Pad (msg : List Nat) : List Nat :=
  let len := msg.length
  let padZeros := (64 + 56 - (len + 1) % 64) % 64
  msg ++ [0x80] ++ List.replicate padZeros 0 ++ lenBytesBE (8 * len)

/-- Big-endian grouping of bytes into 32-bit words. -/
def bytesToWords : List Nat → List Nat
  | b0 :: b1 :: b2 :: b3 :: rest =>
    ((b0 <<< 24) ||| (b1 <<< 16) ||| (b2 <<< 8) ||| b3) :: bytesToWords rest
  | _ => []

/-- Grouping of words into 16-word blocks (the padded word count is a
multiple of 16). -/
def wordsToBlocks (ws : List Nat) : List (List Nat) :=
  (ws.foldl
    (fun (acc : List (List Nat) × List Nat) w =>
      let cur := acc.2 ++ [w]
      if cur.length = 16 then (acc.1 ++ [cur], []) else (acc.1, cur))
    ([], [])).1

/-- The SHA-256 digest of a byte sequence, as the eight final hash
words. -/
def sha256 (msg : List Nat) : Sha256State :=
  (wordsToBlocks (bytesToWords (sha256Pad msg))).foldl sha256Compress sha256Init

/-- Big-endian byte decomposition of a 32-bit word. -/
def wordBytesBE (w : Nat) : List Nat :=
  [w >>> 24 % 256, w >>> 16 % 256, w >>> 8 % 256, w % 256]

/-- The 32 digest bytes of a final SHA-256 state. -/
def sha256DigestBytes (st : Sha256State) : List Nat :=
  wordBytesBE st.h0 ++ wordBytesBE st.h1 ++ wordBytesBE st.h2 ++ wordBytesBE st.h3
    ++ wordBytesBE st.h4 ++ wordBytesBE st.h5 ++ wordBytesBE st.h6 ++ wordBytesBE st.h7

/-- The lowercase hex digit for `n < 16`. -/
def hexDigitChar (n : Nat) : Char :=
  "0123456789abcdef".data.getD n '0'

/-- The two lowercase hex digits of a byte. -/
def byteToHexChars (b : Nat) : List Char :=
  [hexDigitChar (b / 16 % 16), hexDigitChar (b % 16)]

/-- The 64 hex characters of the SHA-256 digest (`digest('hex')`). -/
def sha256HexChars (msg : List Nat) : List Char :=
  ((sha256DigestBytes (sha256 msg)).map byteToHexChars).flatten

/-- The UTF-8 bytes of one character (Node hashes the UTF-8 encoding of
the string). -/
def utf8EncodeCharBytes (c : Char) : List Nat :=
  let n := c.toNat
  if n < 0x80 then [n]
  else if n < 0x800 then
    [0xc0 ||| (n >>> 6), 0x80 ||| (n &&& 0x3f)]
  else if n < 0x10000 then
    [0xe0 ||| (n >>> 12), 0x80 ||| ((n >>> 6) &&& 0x3f), 0x80 ||| (n &&& 0x3f)]
  else
    [0xf0 ||| (n >>> 18), 0x80 ||| ((n >>> 12) &&& 0x3f),
     0x80 ||| ((n >>> 6) &&& 0x3f), 0x80 ||| (n &&& 0x3f)]

/-- The UTF-8 bytes of a string. -/
def utf8Bytes (s : String) : List Nat :=
  (s.data.map utf8EncodeCharBytes).flatten

/-! ### Result cache (`src/lib/grammar/cache.ts`) -/

/-- The 16-hex-character content hash used inside a cache key:
`createHash('sha256').update(text).digest('hex').substring(0, 16)`. -/
def contentHash16 (text : String) : String :=
  String.mk ((sha256HexChars (utf8Bytes text)).take 16)

/-- `generateCacheKey` of `cache.ts`:
`grammar:{provider}:{language}:{hash}`. -/
def generateCacheKey (provider : String) (language : String) (text : String) : String :=
  let hash := contentHash16 text
  "grammar:" ++ provider ++ ":" ++ language ++ ":" ++ hash

/-- Outcome of one backend key-value operation: a value, or a thrown
backend error. -/
inductive KVResult (α : Type) where
  | ok (value : α)
  | fail

/-- The remote key-value backend as the cache module sees it:
whether the `KV_URL` / `KV_REST_API_URL` / `KV_REST_API_TOKEN`
credentials are all present, and what `kv.get` / `kv.set` do.  (The
usage / session counters follow the same pattern and are modelled as
recorded effects in the route.) -/
structure KVStore where
  configured : Bool
  get : String → KVResult (Option (List GrammarError))
  set : String → List GrammarError → Nat → KVResult Unit

/-- `CACHE_TTL` of `cache.ts`: 24 hours in seconds. -/
def CACHE_TTL : Nat := 24 * 60 * 60

/-- A cache-layer failure (a thrown error inside the `try` block). -/
structure CacheError where
  msg : String

/-- `getKV` of `cache.ts`: `null` when the credentials are absent,
otherwise the (lazily loaded, here stateless) client. -/
def getKV (kv : KVStore) : Option KVStore :=
  if kv.configured then some kv else none

/-- The `try` block of `getCachedResult`: `null` when KV is not
configured, otherwise `kv.get(key)`, which may throw. -/
def getCachedResultTry (kv : KVStore) (key : String) :
    Except CacheError (Option (List GrammarError)) :=
  match getKV kv with
  | none => .ok none
  | some inst =>
    match inst.get key with
    | .fail => .error ⟨"Cache get error"⟩
    | .ok cached => .ok cached

/-- `getCachedResult` of `cache.ts`: the `try` block with its `catch`,
which logs and returns `null`. -/
def getCachedResult (kv : KVStore) (key : String) :
    Except CacheError (Option (List GrammarError)) :=
  match getCachedResultTry kv key with
  | .ok v => .ok v
  | .error _ => .ok none

/-- The `try` block of `setCachedResult`: a no-op when KV is not
configured, otherwise `kv.set(key, errors, { ex: ttl })`, which may
throw. -/
def setCachedResultTry (kv : KVStore) (key : String) (errors : List GrammarError)
    (ttl : Nat) : Except CacheError Unit :=
  match getKV kv with
  | none => .ok ()
  | some inst =>
    match inst.set key errors ttl with
    | .fail => .error ⟨"Cache set error"⟩
    | .ok _ => .ok ()

/-- `setCachedResult` of `cache.ts`: the `try` block with its `catch`,
which logs and deliberately does not rethrow. -/
def setCachedResult (kv : KVStore) (key : String) (errors : List GrammarError)
    (ttl : Nat) : Except CacheError Unit :=
  match setCachedResultTry kv key errors ttl with
  | .ok _ => .ok ()
  | .error _ => .ok ()

/-! ### Request orchestrator (`src/app/api/grammar-check/route.ts`) -/

/-- A JSON value as the handler's unchecked destructuring sees it.  The
`GrammarCheckRequest` annotation is not enforced at runtime, so each
field can hold any JSON value. -/
inductive JSVal where
  | undef
  | nullval
  | str (s : String)
  | num (n : Int)
  | boolv (b : Bool)
  | obj
deriving DecidableEq, Repr

/-- JavaScript falsiness of a JSON value (`!x`). -/
def JSVal.falsy : JSVal → Bool
  | .undef => true
  | .nullval => true
  | .str s => s.isEmpty
  | .num n => n = 0
  | .boolv b => !b
  | .obj => false

/-- JavaScript `typeof x === 'string'`. -/
def JSVal.isString : JSVal → Bool
  | .str _ => true
  | _ => false

/-- The string payload of a value known to be a string (used only after
the `typeof` check, or for values the handler forwards verbatim). -/
def JSVal.asString : JSVal → String
  | .str s => s
  | _ => ""

/-- JavaScript `list.includes(x)` over a list of string literals:
`===` matches only an identical string. -/
def jsIncludes (l : List String) : JSVal → Bool
  | .str s => l.contains s
  | _ => false

/-- The parsed request body (`GrammarCheckRequest` in
`types/grammar.ts`, with the three unvalidated fields as raw JSON
values; `language` defaults at destructuring when absent). -/
structure GrammarCheckRequest where
  text : JSVal
  provider : JSVal
  sessionId : JSVal
  language : Option String
deriving DecidableEq, Repr

/-- The `metadata` part of a success response. -/
structure ResponseMetadata where
  provider : String
  processingTime : Nat
  cached : Bool
  timestamp : Nat
  language : String
deriving DecidableEq, Repr

/-- The success response envelope (`GrammarCheckResponse`). -/
structure GrammarCheckResponse where
  errors : List GrammarError
  metadata : ResponseMetadata
deriving DecidableEq, Repr

/-- An I/O action the handler started, in chronological order.  The
fire-and-forget actions (`trackSession`, `setCachedResult`,
`incrementProviderUsage`) are recorded as effects; their results never
reach the handler. -/
inductive Effect where
  | sessionTracked (sessionId : String)
  | cacheRead (key : String)
  | providerCalled (provider : String)
  | cacheWritten (key : String) (errors : List GrammarError)
  | usageIncremented (provider : String)
deriving DecidableEq, Repr

/-- What `POST` answers: `NextResponse.json(response)` (HTTP 200) or
`NextResponse.json({ error }, { status })`. -/
inductive RouteResponse where
  | ok (response : GrammarCheckResponse)
  | errorJson (status : Nat) (error : String)
deriving DecidableEq, Repr

/-- The world one request runs against: the key-value backend, the
LanguageTool oracle, the two language-model environments, and the two
`Date.now()` readings. -/
structure RouteWorld where
  kv : KVStore
  lt : String → String → LTOutcome
  openai : OpenAIEnv
  openrouter : OpenRouterEnv
  startTime : Nat
  now : Nat

/-- `MAX_TEXT_LENGTH` of `route.ts`. -/
def MAX_TEXT_LENGTH : Nat := 10000

/-- The `POST` handler of `route.ts`.  `body = none` models a
`request.json()` failure (caught by the outer `catch`).  Returns the
response together with the chronological list of I/O effects the
request performed or fired. -/
def POST (body : Option GrammarCheckRequest) (w : RouteWorld) :
    RouteResponse × List Effect :=
  match body with
  | none => (.errorJson 500 "Internal server error", [])
  | some b =>
    let text := b.text
    let provider := b.provider
    let sessionId := b.sessionId
    let language := b.language.getD "en-US"
    if text.falsy || !text.isString then
      (.errorJson 400 "Text is required", [])
    else if text.asString.length > MAX_TEXT_LENGTH then
      (.errorJson 400
        ("Text exceeds maximum length of " ++ toString MAX_TEXT_LENGTH ++ " characters"), [])
    else if provider.falsy || !jsIncludes ["languagetool", "openai", "openrouter"] provider then
      (.errorJson 400 "Invalid provider", [])
    else
      let trackEffects : List Effect :=
        if !sessionId.falsy then [.sessionTracked sessionId.asString] else []
      let t := text.asString
      let cacheKey := generateCacheKey provider.asString language t
      let cachedResult : Option (List GrammarError) :=
        match getCachedResult w.kv cacheKey with
        | .ok v => v
        | .error _ => none
      let effectsAfterGet := trackEffects ++ [.cacheRead cacheKey]
      match cachedResult with
      | some cached =>
        (.ok { errors := cached
               metadata := { provider := provider.asString
                             processingTime := w.now - w.startTime
                             cached := true
                             timestamp := w.now
                             language := language } }, effectsAfterGet)
      | none =>
        let checkResult : Except ProviderError (List GrammarError) :=
          if provider.asString = "languagetool" then
            checkWithLanguageTool (w.lt t language) t language
          else if provider.asString = "openai" then
            checkWithOpenAI w.openai t language
          else if provider.asString = "openrouter" then
            checkWithOpenRouter w.openrouter w.lt t language
          else
            .error ⟨"Invalid provider"⟩
        let effectsAfterCall := effectsAfterGet ++ [.providerCalled provider.asString]
        match checkResult with
        | .error e =>
          (.errorJson 500 ("Grammar check failed: " ++ e.msg), effectsAfterCall)
        | .ok errors =>
          let effectsFinal := effectsAfterCall
            ++ [.cacheWritten cacheKey errors, .usageIncremented provider.asString]
          (.ok { errors := errors
                 metadata := { provider := provider.asString
                               processingTime := w.now - w.startTime
                               cached := false
                               timestamp := w.now
                               language := language } }, effectsFinal)

/-! ### Auxiliary definitions for the verification statements -/

/-- Decidable equality of provider results, so witnesses can be checked
by evaluation. -/
instance {ε α : Type} [DecidableEq ε] [DecidableEq α] : DecidableEq (Except ε α) := fun a b =>
  match a, b with
  | .error e1, .error e2 =>
    if h : e1 = e2 then .isTrue (by rw [h]) else .isFalse (fun hc => h (by injection hc))
  | .ok a1, .ok a2 =>
    if h : a1 = a2 then .isTrue (by rw [h]) else .isFalse (fun hc => h (by injection hc))
  | .error _, .ok _ => .isFalse (fun hc => Except.noConfusion hc)
  | .ok _, .error _ => .isFalse (fun hc => Except.noConfusion hc)

/-- Hex-digit test for the characters `0-9a-f` produced by
`digest('hex')`. -/
def isHexDigitChar (c : Char) : Bool :=
  "0123456789abcdef".data.contains c

/-- The capitalization-match predicate as the spec words it: the
candidate's and the original word's first letters are both uppercase or
both lowercase.  This definition follows the spec's words and exists to
be compared with `capitalizationBonus`, which embeds the source. -/
def capMatchesSpec (suggestion originalWord : String) : Bool :=
  match suggestion.data, originalWord.data with
  | d :: _, c :: _ => (d.isUpper && c.isUpper) || (d.isLower && c.isLower)
  | _, _ => false

/-- A string whose first character is unchanged by `toUpperCase` (an
uppercase letter, a digit, punctuation, …) — the actual test the source
performs on each side of the capitalization bonus. -/
def firstCharSelfUpper (s : String) : Bool :=
  match s.data with
  | [] => false
  | c :: _ => c = c.toUpper

/-! ### Concrete fixtures for the witnesses -/

/-- A backend that is configured but whose every operation throws. -/
def kvThrowing : KVStore :=
  { configured := true
    get := fun _ => .fail
    set := fun _ _ _ => .fail }

/-- A failing OpenRouter environment for the C1 witness: no credential
configured. -/
def orEnvNoKey : OpenRouterEnv := { apiKey := none, outcome := .parsed none }

/-- A LanguageTool oracle answering no matches. -/
def ltOracleEmpty : String → String → LTOutcome := fun _ _ => .ok []

/-- A request with a well-formed text but an unknown provider, for the
C3 witness. -/
def reqBadProvider : GrammarCheckRequest :=
  { text := .str "Helo wrld", provider := .str "grammarly", sessionId := .undef,
    language := none }

/-- A world for the route witnesses: unconfigured store, all providers
answering trivially. -/
def routeWorldDemo : RouteWorld :=
  { kv := { configured := false, get := fun _ => .ok none, set := fun _ _ _ => .ok () }
    lt := fun _ _ => .ok []
    openai := { apiKey := none, outcome := .parsed none }
    openrouter := { apiKey := none, outcome := .parsed none }
    startTime := 0
    now := 0 }

/-- A LanguageTool match carrying 7 candidate replacements, for the C4
witness. -/
def demoMatch : LanguageToolMatch :=
  { message := "Possible spelling mistake found."
    shortMessage := some "Spelling mistake"
    offset := 0
    length := 4
    replacements := [⟨"hello"⟩, ⟨"help"⟩, ⟨"helot"⟩, ⟨"halo"⟩, ⟨"hero"⟩, ⟨"hole"⟩, ⟨"helm"⟩]
    rule := { id := "MORFOLOGIK_RULE_EN_US"
              description := "Possible spelling mistake"
              category := { id := "TYPOS", name := "Possible Typo" } }
    context := { text := "helo x", offset := 0, length := 4 }
    type := some ⟨"UnknownWord"⟩ }

/-- The error list the rule-based variant produces on `demoMatch`. -/
def demoLTErrors : List GrammarError :=
  match checkWithLanguageTool (.ok [demoMatch]) "helo x" "en-US" with
  | .ok l => l
  | .error _ => []

/-- The first error of `demoLTErrors`. -/
def demoLTError : GrammarError :=
  demoLTErrors.headD
    { message := "", shortMessage := none, offset := 0, length := 0, replacements := [],
      rule := ⟨"", "", ""⟩, type := .other, context := none }

/-- A LanguageTool match whose only candidate replacement is the empty
string, against a text whose erroneous word is capitalized — the C10
failure input. -/
def emptyReplacementMatch : LanguageToolMatch :=
  { message := "Possible spelling mistake found."
    shortMessage := none
    offset := 0
    length := 4
    replacements := [⟨""⟩]
    rule := { id := "MORFOLOGIK_RULE_EN_US"
              description := "Possible spelling mistake"
              category := { id := "TYPOS", name := "Possible Typo" } }
    context := { text := "Helo world", offset := 0, length := 4 }
    type := none }

/-! ## Theorems -/

section RatComputation

/- `Rat.add` and friends are `@[irreducible]` in the library; making
them semireducible locally lets `decide` evaluate concrete scores. -/
attribute [local semireducible] Rat.add Rat.sub Rat.mul Rat.inv Rat.ofScientific

/-- The digest hex string always has 64 characters. -/
theorem length_sha256HexChars (msg : List Nat) : (sha256HexChars msg).length = 64 := by
  simp [sha256HexChars, sha256DigestBytes, wordBytesBE, byteToHexChars]

/-- Every character of the digest hex string is a lowercase hex
digit. -/
theorem mem_sha256HexChars_isHex (msg : List Nat) :
    ∀ c ∈ sha256HexChars msg, isHexDigitChar c = true := by
  intro c hc
  simp only [sha256HexChars, sha256DigestBytes, List.map_append, List.flatten_append,
    List.mem_append, List.mem_flatten, List.mem_map] at hc
  have hbyte : ∀ b : Nat, ∀ x ∈ byteToHexChars b, isHexDigitChar x = true := by
    intro b x hx
    have hdig : ∀ m, m < 16 → isHexDigitChar (hexDigitChar m) = true := by decide
    simp only [byteToHexChars, List.mem_cons, List.not_mem_nil, or_false] at hx
    rcases hx with h | h <;> subst h
    · exact hdig _ (Nat.mod_lt _ (by decide))
    · exact hdig _ (Nat.mod_lt _ (by decide))
  rcases hc with ((((((h | h) | h) | h) | h) | h) | h) | h <;>
    · obtain ⟨l, ⟨b, _, rfl⟩, hcl⟩ := h
      exact hbyte b c hcl

/-- C2: `generateCacheKey` is pure and deterministic with no error
conditions; for every `(provider, language, text)` it returns
`grammar:{provider}:{language}:{h}` where `h` is the first 16 hex
characters of the SHA-256 digest of the exact text, and identical
inputs always yield the identical key. -/
theorem C2_generateCacheKey (provider language text : String) :
    generateCacheKey provider language text =
      "grammar:" ++ provider ++ ":" ++ language ++ ":" ++
        String.mk ((sha256HexChars (utf8Bytes text)).take 16) ∧
    (contentHash16 text).length = 16 ∧
    (contentHash16 text).data.all isHexDigitChar = true ∧
    (∀ p2 l2 t2, p2 = provider → l2 = language → t2 = text →
      generateCacheKey p2 l2 t2 = generateCacheKey provider language text) := by
  refine ⟨rfl, ?_, ?_, ?_⟩
  · show (String.mk ((sha256HexChars (utf8Bytes text)).take 16)).length = 16
    have h64 := length_sha256HexChars (utf8Bytes text)
    simp [String.length, List.length_take, h64]
  · rw [List.all_eq_true]
    intro c hc
    simp only [contentHash16] at hc
    exact mem_sha256HexChars_isHex (utf8Bytes text) c (List.mem_of_mem_take hc)
  · intro p2 l2 t2 hp hl ht
    rw [hp, hl, ht]

/-- Witness for C2 at a concrete input. -/
theorem C2_generateCacheKey_witness :
    generateCacheKey "languagetool" "en-US" "a" =
      "grammar:" ++ "languagetool" ++ ":" ++ "en-US" ++ ":" ++
        String.mk ((sha256HexChars (utf8Bytes "a")).take 16) ∧
    generateCacheKey "languagetool" "en-US" "a" =
      generateCacheKey "languagetool" "en-US" "a" :=
  ⟨(C2_generateCacheKey "languagetool" "en-US" "a").1,
   (C2_generateCacheKey "languagetool" "en-US" "a").2.2.2 "languagetool" "en-US" "a"
     rfl rfl rfl⟩

/-- C5: `getCachedResult` never raises — it answers `.ok` for every
backend, answering a miss (`none`) when the store is unconfigured and
when the backend read throws; and `setCachedResult` never raises to its
caller, for every backend, key, error list and TTL. -/
theorem C5_cache_failures_absorbed :
    (∀ (kv : KVStore) (key : String), ∃ v, getCachedResult kv key = .ok v) ∧
    (∀ (kv : KVStore) (key : String), kv.configured = false →
      getCachedResult kv key = .ok none) ∧
    (∀ (kv : KVStore) (key : String), kv.get key = .fail →
      getCachedResult kv key = .ok none) ∧
    (∀ (kv : KVStore) (key : String) (errors : List GrammarError) (ttl : Nat),
      setCachedResult kv key errors ttl = .ok ()) := by
  refine ⟨?_, ?_, ?_, ?_⟩
  · intro kv key
    unfold getCachedResult
    cases getCachedResultTry kv key with
    | ok v => exact ⟨v, rfl⟩
    | error e => exact ⟨none, rfl⟩
  · intro kv key hconf
    simp [getCachedResult, getCachedResultTry, getKV, hconf]
  · intro kv key hget
    unfold getCachedResult getCachedResultTry getKV
    cases hc : kv.configured <;> simp [hget]
  · intro kv key errors ttl
    unfold setCachedResult
    cases setCachedResultTry kv key errors ttl with
    | ok v => rfl
    | error e => rfl

/-- Witness for C5: a throwing backend still yields a miss and a silent
write. -/
theorem C5_cache_failures_absorbed_witness :
    getCachedResult kvThrowing "grammar:languagetool:en-US:0000000000000000" = .ok none ∧
    setCachedResult kvThrowing "grammar:languagetool:en-US:0000000000000000" [] CACHE_TTL
      = .ok () :=
  ⟨C5_cache_failures_absorbed.2.2.1 kvThrowing _ rfl,
   C5_cache_failures_absorbed.2.2.2 kvThrowing _ [] CACHE_TTL⟩

/-- C1: whenever no OpenRouter credential is configured or the
OpenRouter exchange fails (non-2xx response, missing content, JSON
parse failure), `checkWithOpenRouter` returns exactly the result of
`checkWithLanguageTool` on the same `(text, language)` — the
OpenRouter failure itself is never propagated. -/
theorem C1_openrouter_silent_fallback
    (env : OpenRouterEnv) (ltOutcome : String → String → LTOutcome)
    (text language : String)
    (h : env.apiKey = none ∨ orCallFails env.outcome = true) :
    checkWithOpenRouter env ltOutcome text language =
      checkWithLanguageTool (ltOutcome text language) text language := by
  obtain ⟨key, outcome⟩ := env
  rcases h with h | h
  · simp only at h
    subst h
    rfl
  · cases key with
    | none => rfl
    | some k => cases outcome <;> first | rfl | simp [orCallFails] at h

/-- Witness for C1 at a concrete environment. -/
theorem C1_openrouter_silent_fallback_witness :
    checkWithOpenRouter orEnvNoKey ltOracleEmpty "helo wrld" "en-US" =
      checkWithLanguageTool (ltOracleEmpty "helo wrld" "en-US") "helo wrld" "en-US" :=
  C1_openrouter_silent_fallback orEnvNoKey ltOracleEmpty "helo wrld" "en-US" (Or.inl rfl)

/-- C6: on the concrete scenario — original word `helo`, candidates
`hello`, `help`, `helot`, error at offset 0 (sentence start), trailing
context containing `how are you` — the ranker places `hello` first. -/
theorem C6_ranking_scenario :
    smartOrderSuggestions ["hello", "help", "helot"] "helo" "helo how are you" 0
      = some ["hello", "help", "helot"] := by
  decide

/-- Every error produced by `normalizeMatch` carries at most 5
replacements (`slice(0, 5)`). -/
theorem normalizeMatch_replacements_le (m : LanguageToolMatch) (fullText : String)
    (e : GrammarError) (h : normalizeMatch m fullText = some e) :
    e.replacements.length ≤ 5 := by
  cases hs : smartOrderSuggestions (m.replacements.map (fun r => r.value))
      (jsSubstring fullText m.offset (m.offset + m.length)) fullText m.offset with
  | none => simp [normalizeMatch, hs] at h
  | some ordered =>
    simp only [normalizeMatch, hs, Option.map, Option.some.injEq] at h
    subst h
    simp

/-- Success lists of `mapM` over `Option` only contain images of list
elements. -/
theorem exists_of_mem_mapM {α β : Type} (f : α → Option β) :
    ∀ (l : List α) (out : List β), l.mapM f = some out →
      ∀ b ∈ out, ∃ a ∈ l, f a = some b := by
  intro l
  induction l with
  | nil =>
    intro out h b hb
    simp only [List.mapM_nil, Option.pure_def, Option.some.injEq] at h
    subst h
    simp at hb
  | cons a t ih =>
    intro out h b hb
    rw [List.mapM_cons] at h
    cases hfa : f a with
    | none => rw [hfa] at h; simp at h
    | some v =>
      cases hmt : t.mapM f with
      | none => rw [hfa, hmt] at h; simp at h
      | some vs =>
        rw [hfa, hmt] at h
        simp at h
        subst h
        rcases List.mem_cons.mp hb with rfl | hmem
        · exact ⟨a, List.mem_cons_self a t, hfa⟩
        · obtain ⟨a2, ha2, hfa2⟩ := ih vs hmt b hmem
          exact ⟨a2, List.mem_cons_of_mem a ha2, hfa2⟩

/-- The rule-based variant caps `replacements` at 5 on every returned
error. -/
theorem checkWithLanguageTool_replacements_le
    (outcome : LTOutcome) (text language : String) (l : List GrammarError)
    (h : checkWithLanguageTool outcome text language = .ok l) :
    ∀ e ∈ l, e.replacements.length ≤ 5 := by
  intro e he
  cases outcome with
  | httpError s st => simp [checkWithLanguageTool] at h
  | badJson => simp [checkWithLanguageTool] at h
  | ok ms =>
    cases hm : ms.mapM (fun m => normalizeMatch m text) with
    | none =>
      unfold checkWithLanguageTool at h
      dsimp only at h
      rw [hm] at h
      simp at h
    | some errs =>
      unfold checkWithLanguageTool at h
      dsimp only at h
      rw [hm] at h
      simp only [Except.ok.injEq] at h
      subst h
      obtain ⟨m, _, hnorm⟩ := exists_of_mem_mapM _ ms errs hm e he
      exact normalizeMatch_replacements_le m text e hnorm

/-- The premium variant caps `replacements` at 5 on every returned
error. -/
theorem checkWithOpenAI_replacements_le
    (env : OpenAIEnv) (text language : String) (l : List GrammarError)
    (h : checkWithOpenAI env text language = .ok l) :
    ∀ e ∈ l, e.replacements.length ≤ 5 := by
  intro e he
  obtain ⟨key, outcome⟩ := env
  cases key with
  | none => simp [checkWithOpenAI] at h
  | some k =>
    cases outcome with
    | callError msg => simp [checkWithOpenAI] at h
    | noContent => simp [checkWithOpenAI] at h
    | parseError => simp [checkWithOpenAI] at h
    | parsed errorsField =>
      cases errorsField with
      | none =>
        simp only [checkWithOpenAI, Except.ok.injEq] at h
        subst h
        simp at he
      | some errors =>
        simp only [checkWithOpenAI, Except.ok.injEq] at h
        subst h
        obtain ⟨err, _, rfl⟩ := List.mem_map.mp he
        simp [normalizeOpenAIError]

/-- The free-tier variant caps `replacements` at 5 on every returned
error (including through its LanguageTool fallback). -/
theorem checkWithOpenRouter_replacements_le
    (env : OpenRouterEnv) (ltOutcome : String → String → LTOutcome)
    (text language : String) (l : List GrammarError)
    (h : checkWithOpenRouter env ltOutcome text language = .ok l) :
    ∀ e ∈ l, e.replacements.length ≤ 5 := by
  intro e he
  obtain ⟨key, outcome⟩ := env
  cases key with
  | none =>
    exact checkWithLanguageTool_replacements_le (ltOutcome text language) text language l h e he
  | some k =>
    cases outcome with
    | httpError s =>
      exact checkWithLanguageTool_replacements_le (ltOutcome text language) text language l h e he
    | noContent =>
      exact checkWithLanguageTool_replacements_le (ltOutcome text language) text language l h e he
    | parseError =>
      exact checkWithLanguageTool_replacements_le (ltOutcome text language) text language l h e he
    | parsed errorsField =>
      cases errorsField with
      | none =>
        simp only [checkWithOpenRouter, Except.ok.injEq] at h
        subst h
        simp at he
      | some errors =>
        simp only [checkWithOpenRouter, Except.ok.injEq] at h
        subst h
        obtain ⟨err, _, rfl⟩ := List.mem_map.mp he
        simp [normalizeOpenRouterError]

/-- C4: for every provider variant and every successfully returned
error list, each error's `replacements` has at most 5 entries — each
variant truncates the candidate list to its first 5 before
returning. -/
theorem C4_replacements_cap :
    (∀ (outcome : LTOutcome) (text language : String) (l : List GrammarError),
      checkWithLanguageTool outcome text language = .ok l →
        ∀ e ∈ l, e.replacements.length ≤ 5) ∧
    (∀ (env : OpenAIEnv) (text language : String) (l : List GrammarError),
      checkWithOpenAI env text language = .ok l →
        ∀ e ∈ l, e.replacements.length ≤ 5) ∧
    (∀ (env : OpenRouterEnv) (ltOutcome : String → String → LTOutcome)
      (text language : String) (l : List GrammarError),
      checkWithOpenRouter env ltOutcome text language = .ok l →
        ∀ e ∈ l, e.replacements.length ≤ 5) :=
  ⟨checkWithLanguageTool_replacements_le, checkWithOpenAI_replacements_le,
   checkWithOpenRouter_replacements_le⟩

/-- Witness for C4: a rule-based check on a match carrying 7 candidate
replacements returns an error with at most 5. -/
theorem C4_replacements_cap_witness : demoLTError.replacements.length ≤ 5 :=
  C4_replacements_cap.1 (.ok [demoMatch]) "helo x" "en-US" demoLTErrors (by decide)
    demoLTError (by decide)

/-- C3: a request whose `text` is missing or not a string, or whose
`text` is a string longer than 10,000 characters, or whose `provider`
is not one of `languagetool` / `openai` / `openrouter`, is answered
with HTTP 400 and an error string, and the handler performs no effect
at all — no session tracking, no cache lookup, no cache write and no
provider call. -/
theorem C3_validation_terminal (b : GrammarCheckRequest) (w : RouteWorld)
    (h : (b.text = .undef ∨ b.text.isString = false) ∨
      (∃ s, b.text = .str s ∧ s.length > MAX_TEXT_LENGTH) ∨
      jsIncludes ["languagetool", "openai", "openrouter"] b.provider = false) :
    (∃ msg, (POST (some b) w).1 = .errorJson 400 msg) ∧ (POST (some b) w).2 = [] := by
  by_cases h1 : (b.text.falsy || !b.text.isString) = true
  · constructor
    · exact ⟨"Text is required", by simp [POST, h1]⟩
    · simp [POST, h1]
  · by_cases h2 : b.text.asString.length > MAX_TEXT_LENGTH
    · constructor
      · refine ⟨"Text exceeds maximum length of " ++ toString MAX_TEXT_LENGTH
          ++ " characters", ?_⟩
        simp [POST, h1, h2]
      · simp [POST, h1, h2]
    · by_cases h3 :
        (b.provider.falsy || !jsIncludes ["languagetool", "openai", "openrouter"] b.provider)
          = true
      · constructor
        · exact ⟨"Invalid provider", by simp [POST, h1, h2, h3]⟩
        · simp [POST, h1, h2, h3]
      · exfalso
        simp only [Bool.or_eq_true, Bool.not_eq_true', not_or, Bool.not_eq_true] at h1 h3
        rcases h with (hu | hs) | ⟨s, hts, hlen⟩ | hp
        · rw [hu] at h1
          simp [JSVal.falsy] at h1
        · exact absurd hs (by simp [h1.2])
        · refine absurd hlen ?_
          rw [hts] at h2
          simpa [JSVal.asString] using h2
        · exact absurd hp (by simp [h3.2])

/-- Witness for C3: an unknown provider is rejected with 400 (the
`Invalid provider` message) and no effect is performed. -/
theorem C3_validation_terminal_witness :
    (POST (some reqBadProvider) routeWorldDemo).1 = .errorJson 400 "Invalid provider" ∧
    (POST (some reqBadProvider) routeWorldDemo).2 = [] :=
  ⟨by decide,
   (C3_validation_terminal reqBadProvider routeWorldDemo (Or.inr (Or.inr (by decide)))).2⟩

/-- C9: a request whose `text` is the empty string is rejected with
HTTP 400 and `Text is required`, with no effect performed — the
presence check uses JavaScript falsiness, so `""` is treated like a
missing field even though it is a present string value. -/
theorem C9_empty_text_rejected (provider sessionId : JSVal) (language : Option String)
    (w : RouteWorld) :
    POST (some ⟨.str "", provider, sessionId, language⟩) w
      = (.errorJson 400 "Text is required", []) := by
  have he : ("" : String).isEmpty = true := rfl
  simp [POST, JSVal.falsy, he]

/-- C7 counterexample: the claim predicts the +5 bonus exactly when the
first letters match in capitalization, i.e. are both uppercase or both
lowercase; but for the candidate `help` against the original `helo` —
both first letters lowercase — the source awards no bonus, because its
test `x[0] === x[0].toUpperCase()` only succeeds on characters that are
their own uppercase form. -/
theorem C7_cap_bonus_counterexample :
    ¬ (capitalizationBonus "help" "helo" = some 5 ↔ capMatchesSpec "help" "helo" = true) := by
  decide

/-- C7 (amended): the score includes a +5 capitalization bonus exactly
when the original word's first character is unchanged by uppercasing
and the candidate's first character is unchanged by uppercasing (e.g.
both begin with an uppercase letter or a non-letter); two lowercase
first letters receive no bonus. -/
theorem C7_cap_bonus_amended
    (suggestion originalWord contextBefore contextAfter : String) (isStart : Bool) :
    (capitalizationBonus suggestion originalWord = some 5 ↔
      firstCharSelfUpper originalWord = true ∧ firstCharSelfUpper suggestion = true) ∧
    (∀ q, capitalizationBonus suggestion originalWord = some q →
      scoreSuggestion suggestion originalWord contextBefore contextAfter isStart
        = some (scoreWithoutCapBonus suggestion originalWord contextBefore contextAfter
            isStart + q)) := by
  constructor
  · cases hw : originalWord.data with
    | nil => simp [capitalizationBonus, firstCharSelfUpper, hw]
    | cons c cs =>
      by_cases hc : c = c.toUpper
      · cases hs : suggestion.data with
        | nil =>
          simp only [capitalizationBonus, firstCharSelfUpper, hw, hs, if_pos hc]
          simp
        | cons d ds =>
          by_cases hd : d = d.toUpper
          · simp only [capitalizationBonus, firstCharSelfUpper, hw, hs, if_pos hc,
              if_pos hd, decide_eq_true_eq]
            exact iff_of_true trivial ⟨hc, hd⟩
          · simp only [capitalizationBonus, firstCharSelfUpper, hw, hs, if_pos hc,
              if_neg hd, decide_eq_true_eq, Option.some.injEq]
            constructor
            · intro hzero
              exact absurd hzero (by decide)
            · rintro ⟨_, hd2⟩
              exact absurd hd2 hd
      · simp only [capitalizationBonus, firstCharSelfUpper, hw, if_neg hc,
          decide_eq_true_eq, Option.some.injEq]
        constructor
        · intro hzero
          exact absurd hzero (by decide)
        · rintro ⟨hc2, _⟩
          exact absurd hc2 hc
  · intro q hq
    simp [scoreSuggestion, hq]

/-- Witness for the amended C7: with `Help` against `Helo` the bonus is
5 and the final score is the capless score plus 5. -/
theorem C7_cap_bonus_amended_witness :
    scoreSuggestion "Help" "Helo" "" "" false
      = some (scoreWithoutCapBonus "Help" "Helo" "" "" false + 5) :=
  (C7_cap_bonus_amended "Help" "Helo" "" "" false).2 5 (by decide)

/-- C10: the scoring function is not total — whenever the original
word's first character equals its own uppercase form, scoring the empty
candidate throws (`undefined.toUpperCase()`), and this failure is
reachable from the rule-based check path: a provider match whose
replacement is the empty string against a capitalized word makes
`checkWithLanguageTool` fail. -/
theorem C10_score_not_total :
    (∀ (originalWord contextBefore contextAfter : String) (isStart : Bool),
      firstCharSelfUpper originalWord = true →
      scoreSuggestion "" originalWord contextBefore contextAfter isStart = none) ∧
    checkWithLanguageTool (.ok [emptyReplacementMatch]) "Helo world" "en-US"
      = .error ⟨"Failed to check text with LanguageTool: TypeError"⟩ := by
  constructor
  · intro originalWord contextBefore contextAfter isStart h
    unfold firstCharSelfUpper at h
    cases hw : originalWord.data with
    | nil => rw [hw] at h; simp at h
    | cons c cs =>
      rw [hw] at h
      simp only [decide_eq_true_eq] at h
      have hdata : ("" : String).data = [] := rfl
      simp only [scoreSuggestion, capitalizationBonus, hw, if_pos h, hdata, Option.map]
  · decide

/-- Witness for C10 at the concrete capitalized word `Helo`. -/
theorem C10_score_not_total_witness :
    scoreSuggestion "" "Helo" "" " world" true = none :=
  C10_score_not_total.1 "Helo" "" " world" true (by decide)

/-- A successful scoring `mapM` yields exactly the input strings,
each paired with its own score. -/
theorem mapM_score_spec {f : String → Option ℚ} :
    ∀ {l : List String} {sl : List (String × ℚ)},
      l.mapM (fun s => (f s).map (fun q => (s, q))) = some sl →
      sl.map Prod.fst = l ∧ ∀ x ∈ sl, f x.1 = some x.2 := by
  intro l
  induction l with
  | nil =>
    intro sl h
    simp only [List.mapM_nil, Option.pure_def, Option.some.injEq] at h
    subst h
    exact ⟨rfl, by simp⟩
  | cons a t ih =>
    intro sl h
    rw [List.mapM_cons] at h
    cases hfa : f a with
    | none => rw [hfa] at h; simp at h
    | some v =>
      cases hmt : t.mapM (fun s => (f s).map (fun q => (s, q))) with
      | none => rw [hfa, hmt] at h; simp at h
      | some vs =>
        rw [hfa, hmt] at h
        simp at h
        subst h
        obtain ⟨ih1, ih2⟩ := ih hmt
        refine ⟨by simp [ih1], ?_⟩
        intro x hx
        rcases List.mem_cons.mp hx with rfl | hx2
        · exact hfa
        · exact ih2 x hx2

/-- Conversely, a list of correctly scored pairs is reproduced by
scoring its own strings. -/
theorem mapM_score_of_pairs {f : String → Option ℚ} :
    ∀ {sl : List (String × ℚ)}, (∀ x ∈ sl, f x.1 = some x.2) →
      (sl.map Prod.fst).mapM (fun s => (f s).map (fun q => (s, q))) = some sl := by
  intro sl
  induction sl with
  | nil => intro _; rfl
  | cons x t ih =>
    intro hall
    have hx : f x.1 = some x.2 := hall x (List.mem_cons_self x t)
    have ht := ih (fun y hy => hall y (List.mem_cons_of_mem x hy))
    rw [List.map_cons, List.mapM_cons, hx, ht]
    simp

/-- Inserting a pair into a list commutes with filtering by an exact
score: skipped elements have a strictly larger score, so an inserted
pair of the filtered score lands in front of the filtered tail. -/
theorem filter_orderedInsert_score (c : ℚ) (x : String × ℚ) :
    ∀ l : List (String × ℚ),
      (List.orderedInsert scoreRel x l).filter (fun y => y.2 = c) =
        if x.2 = c then x :: l.filter (fun y => y.2 = c)
        else l.filter (fun y => y.2 = c) := by
  intro l
  induction l with
  | nil =>
    by_cases hx : x.2 = c
    · simp [List.orderedInsert, List.filter_cons, hx]
    · simp [List.orderedInsert, List.filter_cons, hx]
  | cons b t ih =>
    by_cases hr : scoreRel x b
    · rw [List.orderedInsert, if_pos hr]
      by_cases hx : x.2 = c
      · simp [List.filter_cons, hx]
      · simp [List.filter_cons, hx]
    · rw [List.orderedInsert, if_neg hr]
      by_cases hx : x.2 = c
      · have hb : ¬ b.2 = c := by
          intro hbc
          exact hr (le_of_eq (hx ▸ hbc))
        simp [List.filter_cons, hb, hx, ih]
      · simp [List.filter_cons, hx, ih]

/-- The stable insertion sort does not change the subsequence of pairs
holding any fixed score — ties keep their input order. -/
theorem filter_insertionSort_score (c : ℚ) :
    ∀ l : List (String × ℚ),
      (List.insertionSort scoreRel l).filter (fun y => y.2 = c) =
        l.filter (fun y => y.2 = c) := by
  intro l
  induction l with
  | nil => simp
  | cons x t ih =>
    rw [List.insertionSort, filter_orderedInsert_score]
    by_cases hx : x.2 = c
    · simp [hx, ih, List.filter_cons]
    · simp [hx, ih, List.filter_cons]

/-- Filtering the strings by their score agrees with filtering the
scored pairs. -/
theorem map_fst_filter_score {f : String → Option ℚ} (c : ℚ) :
    ∀ {l : List (String × ℚ)}, (∀ x ∈ l, f x.1 = some x.2) →
      (l.map Prod.fst).filter (fun s => f s = some c) =
        (l.filter (fun y => y.2 = c)).map Prod.fst := by
  intro l
  induction l with
  | nil => intro _; simp
  | cons x t ih =>
    intro hall
    have hx : f x.1 = some x.2 := hall x (List.mem_cons_self x t)
    have ht := ih (fun y hy => hall y (List.mem_cons_of_mem x hy))
    by_cases hxc : x.2 = c
    · simp [List.filter_cons, hx, hxc, ht]
    · simp [List.filter_cons, hx, hxc, ht]

/-- C8: the ranker is idempotent — re-ranking its own successful output
returns the same order — and the sort is stable: for every score value,
the strings holding that score appear in the output in their input
order. -/
theorem C8_idempotent_stable (suggestions : List String) (originalWord fullText : String)
    (errorOffset : Nat) (out : List String)
    (h : smartOrderSuggestions suggestions originalWord fullText errorOffset = some out) :
    smartOrderSuggestions out originalWord fullText errorOffset = some out ∧
    ∀ c : ℚ,
      out.filter
          (fun s => suggestionScore originalWord fullText errorOffset s = some c) =
        suggestions.filter
          (fun s => suggestionScore originalWord fullText errorOffset s = some c) := by
  unfold smartOrderSuggestions at h
  cases hm : suggestions.mapM
      (fun s => (suggestionScore originalWord fullText errorOffset s).map
        (fun q => (s, q))) with
  | none => rw [hm] at h; simp at h
  | some scored =>
    rw [hm] at h
    simp only [Option.some.injEq] at h
    subst h
    obtain ⟨hfst, hpairs⟩ := mapM_score_spec hm
    have hpairs2 : ∀ x ∈ List.insertionSort scoreRel scored,
        suggestionScore originalWord fullText errorOffset x.1 = some x.2 :=
      fun x hx => hpairs x ((List.perm_insertionSort scoreRel scored).subset hx)
    have hsorted : List.Sorted scoreRel (List.insertionSort scoreRel scored) :=
      List.sorted_insertionSort scoreRel scored
    constructor
    · unfold smartOrderSuggestions
      rw [mapM_score_of_pairs hpairs2]
      dsimp only
      rw [hsorted.insertionSort_eq]
    · intro c
      rw [map_fst_filter_score c hpairs2, filter_insertionSort_score c,
        ← map_fst_filter_score c hpairs, hfst]

/-- Witness for C8: re-ranking the ranked output of a concrete call
reproduces it. -/
theorem C8_idempotent_stable_witness :
    smartOrderSuggestions ["hello", "help"] "helo" "helo how" 0 = some ["hello", "help"] :=
  (C8_idempotent_stable ["help", "hello"] "helo" "helo how" 0 ["hello", "help"]
    (by decide)).1

end RatComputation

end GrammarChecker
